import Mathlib

/-!
Shallow embedding of the checkout-to-payment-confirmation core of the
Infinity-Xs backend, and proofs about it.

Sources embedded:
* `src/apps/backend/src/modules/cart/Cart.model.ts` (cart aggregate),
* `src/unnamed/part_005` = `src/models/Product.model.ts` (inventory ledger),
* `src/apps/backend/src/modules/order/Order.model.ts` (order methods),
* `src/unnamed/part_015` = `src/controllers/order.controller.ts` (`placeOrder`),
* `src/apps/backend/src/modules/mpesa/mpesa.controller.ts` (callback handler,
  order-status poll).

Mongoose documents are modelled as plain structures; the persistent store is a
structure of lists of documents, and each handler is a function from the store
(plus the request) to the new store and the response.  JavaScript `undefined`
for optional string fields is modelled as `Option.none`, and the JS truthiness
test on such a field (`!x` is true for both `undefined` and `""`) is modelled
by `optTruthy`.
-/

namespace InfinityXs

/-- `OrderStatus` enum from `src/apps/backend/src/types/index.ts`. -/
inductive OrderStatus where
  | pending
  | paid
  | processing
  | shipped
  | delivered
  | cancelled
deriving DecidableEq, Repr

/-- Order `paymentStatus` field: `'pending' | 'completed' | 'failed'`. -/
inductive PaymentStatus where
  | pending
  | completed
  | failed
deriving DecidableEq, Repr

/-- `PaymentMethod` enum from `src/apps/backend/src/types/index.ts`. -/
inductive PaymentMethod where
  | mpesa
  | credit_card
  | paypal
  | cash
deriving DecidableEq, Repr

/-- JS truthiness of an optional string: `undefined` and `""` are falsy. -/
def optTruthy : Option String → Bool
  | none => false
  | some s => s != ""

/-! ## Inventory ledger (`Product.model.ts`, `src/unnamed/part_005`) -/

/-- The fields of a product document that the core reads or mutates. -/
structure Product where
  id : String
  name : String
  price : Int
  /-- Signed stock count; `-1` is the unlimited-stock sentinel. -/
  stock : Int
  isActive : Bool
deriving DecidableEq, Repr

/-- `ProductSchema.methods.decreaseStock` (`part_005` lines 193-211): returns
the success flag together with the saved document. -/
def decreaseStock (p : Product) (quantity : Int) : Bool × Product :=
  if p.stock = -1 then
    (true, p)
  else if p.stock < quantity then
    (false, p)
  else
    (true, { p with stock := p.stock - quantity })

/-- `ProductSchema.methods.increaseStock` (`part_005` lines 220-233). -/
def increaseStock (p : Product) (quantity : Int) : Product :=
  if p.stock = -1 then
    p
  else
    { p with stock := p.stock + quantity }

/-! ## Cart aggregate (`src/apps/backend/src/modules/cart/Cart.model.ts`) -/

/-- A cart line item (`CartItemSchema`); also the shape of an order's
item snapshot. -/
structure CartItem where
  product : String
  quantity : Int
  size : Option String
  color : Option String
  price : Int
deriving DecidableEq, Repr

/-- A cart document. -/
structure Cart where
  user : String
  items : List CartItem
  totalAmount : Int
deriving DecidableEq, Repr

/-- The selector test used by `addItem`/`removeItem`/`updateQuantity`:
`size ? item.size === size : !item.size` (and the same for `color`). -/
def selMatches (arg field : Option String) : Bool :=
  if optTruthy arg then field == arg else !(optTruthy field)

/-- The item-identity test `(product, size, color)` shared by the cart
mutators. -/
def itemMatches (item : CartItem) (productId : String)
    (size color : Option String) : Bool :=
  item.product == productId && selMatches size item.size
    && selMatches color item.color

/-- The reducer in `CartSchema.pre('save')` (lines 102-107):
`Σ (item.price * item.quantity)`. -/
def cartTotal (items : List CartItem) : Int :=
  items.foldl (fun total item => total + item.price * item.quantity) 0

/-- Persisting a cart runs the `pre('save')` hook, which recomputes
`totalAmount` from the items. -/
def saveCart (c : Cart) : Cart :=
  { c with totalAmount := cartTotal c.items }

/-- The `findIndex`-then-mutate / `push` body of `addItem`: the first line
matching the `(product, size, color)` triple has its quantity increased,
otherwise a new line is appended. -/
def addToItems : List CartItem → String → Int → Int → Option String →
    Option String → List CartItem
  | [], productId, quantity, price, size, color =>
    [{ product := productId, quantity := quantity, size := size,
       color := color, price := price }]
  | item :: rest, productId, quantity, price, size, color =>
    if itemMatches item productId size color then
      { item with quantity := item.quantity + quantity } :: rest
    else
      item :: addToItems rest productId quantity price size color

/-- `CartSchema.methods.addItem` (lines 120-153). -/
def addItem (c : Cart) (productId : String) (quantity price : Int)
    (size color : Option String) : Cart :=
  saveCart { c with items := addToItems c.items productId quantity price size color }

/-- `CartSchema.methods.removeItem` (lines 164-181): filters out every
matching line, then saves. -/
def removeItem (c : Cart) (productId : String) (size color : Option String) :
    Cart :=
  saveCart { c with
    items := c.items.filter (fun item => !(itemMatches item productId size color)) }

/-- The `find`-then-mutate body of `updateQuantity`: only the first matching
line has its quantity replaced. -/
def setQuantityFirst : List CartItem → String → Int → Option String →
    Option String → List CartItem
  | [], _, _, _, _ => []
  | item :: rest, productId, quantity, size, color =>
    if itemMatches item productId size color then
      { item with quantity := quantity } :: rest
    else
      item :: setQuantityFirst rest productId quantity size color

/-- `CartSchema.methods.updateQuantity` (lines 193-222): `false` when no line
matches (nothing is saved); quantity `≤ 0` delegates to `removeItem`. -/
def updateQuantity (c : Cart) (productId : String) (quantity : Int)
    (size color : Option String) : Bool × Cart :=
  if c.items.any (fun item => itemMatches item productId size color) then
    if quantity ≤ 0 then
      (true, removeItem c productId size color)
    else
      (true, saveCart { c with
        items := setQuantityFirst c.items productId quantity size color })
  else
    (false, c)

/-- `CartSchema.methods.clearCart` (lines 229-233). -/
def clearCart (c : Cart) : Cart :=
  saveCart { c with items := [], totalAmount := 0 }

/-- The cart created lazily by `getOrCreateCart`:
`this.create({ user: userId, items: [] })`, with the schema default
`totalAmount = 0`. -/
def emptyCart (user : String) : Cart :=
  { user := user, items := [], totalAmount := 0 }

/-- One cart mutation, as dispatched by the cart controller. -/
inductive CartOp where
  | add (productId : String) (quantity price : Int) (size color : Option String)
  | update (productId : String) (quantity : Int) (size color : Option String)
  | remove (productId : String) (size color : Option String)
  | clear
deriving DecidableEq, Repr

/-- Apply a single cart operation to the persisted cart state. -/
def applyOp (c : Cart) : CartOp → Cart
  | .add productId quantity price size color =>
    addItem c productId quantity price size color
  | .update productId quantity size color =>
    (updateQuantity c productId quantity size color).2
  | .remove productId size color => removeItem c productId size color
  | .clear => clearCart c

/-- Apply a sequence of cart operations. -/
def applyOps (c : Cart) (ops : List CartOp) : Cart :=
  ops.foldl applyOp c

/-! ## Order aggregate (`src/apps/backend/src/modules/order/Order.model.ts`) -/

/-- The fields of an order document that the core reads or mutates.
The snapshot `items` reuses the cart line-item shape. -/
structure Order where
  id : String
  orderNumber : String
  user : String
  items : List CartItem
  totalAmount : Int
  status : OrderStatus
  paymentMethod : PaymentMethod
  paymentStatus : PaymentStatus
  transactionId : Option String
  mpesaCheckoutId : Option String
  mpesaReceiptNumber : Option String
  shippingAddress : String
  notes : Option String
deriving DecidableEq, Repr

/-- `OrderSchema.methods.markAsPaid` (lines 231-247): sets
`paymentStatus = completed`, stores the transaction id, stores the receipt
number when truthy, and moves `status` to `PAID`.  There is no guard against
the order already being paid. -/
def markAsPaid (o : Order) (transactionId receiptNumber : String) : Order :=
  { o with
    paymentStatus := .completed,
    transactionId := some transactionId,
    mpesaReceiptNumber :=
      if receiptNumber != "" then some receiptNumber else o.mpesaReceiptNumber,
    status := .paid }

/-- `OrderSchema.methods.markPaymentFailed` (lines 252-258): sets
`paymentStatus = failed` and leaves `status` unchanged. -/
def markPaymentFailed (o : Order) : Order :=
  { o with paymentStatus := .failed }

/-! ## The persistent store -/

/-- The document store: the collections touched by the checkout and
callback flows. -/
structure Store where
  orders : List Order
  products : List Product
  carts : List Cart
deriving DecidableEq, Repr

/-- Persist an updated order document (`order.save()`): replace the stored
document with the same `_id`. -/
def setOrder (orders : List Order) (o : Order) : List Order :=
  orders.map (fun q => if q.id == o.id then o else q)

/-- Persist an updated product document (`product.save()`). -/
def setProduct (products : List Product) (p : Product) : List Product :=
  products.map (fun q => if q.id == p.id then p else q)

/-- Persist an updated cart document; carts are keyed by their (unique)
owning user. -/
def setCart (carts : List Cart) (c : Cart) : List Cart :=
  carts.map (fun d => if d.user == c.user then c else d)

/-! ## Callback reconciler
(`src/apps/backend/src/modules/mpesa/mpesa.controller.ts`) -/

/-- One entry of `CallbackMetadata.Item`.  In the source `Value` is
`string | number`; only its `String(...)` image is consumed on the modelled
paths (the receipt number), so it is carried as a string. -/
structure MetadataItem where
  Name : String
  Value : String
deriving DecidableEq, Repr

/-- The `Body.stkCallback` payload of the payment webhook. -/
structure StkCallback where
  MerchantRequestID : String
  CheckoutRequestID : String
  ResultCode : Int
  ResultDesc : String
  CallbackMetadata : Option (List MetadataItem)
deriving DecidableEq, Repr

/-- The JSON acknowledgment body sent back to the provider. -/
structure MpesaAck where
  ResultCode : Int
  ResultDesc : String
deriving DecidableEq, Repr

/-- An HTTP response of the callback handler: status code and JSON body. -/
structure HttpResponse where
  status : Nat
  body : MpesaAck
deriving DecidableEq, Repr

/-- The metadata loop of the callback handler restricted to the one field the
handler goes on to use: the last `MpesaReceiptNumber` entry wins, defaulting
to `''`. -/
def extractReceiptNumber : Option (List MetadataItem) → String
  | none => ""
  | some items =>
    items.foldl
      (fun receipt item =>
        if item.Name = "MpesaReceiptNumber" then item.Value else receipt)
      ""

/-- The stock-update loop of the callback handler (lines 142-152): for each
snapshot line, look the product up and apply `decreaseStock`; a missing
product or a failed decrement leaves the ledger unchanged. -/
def decrementOrderStock (products : List Product) (items : List CartItem) :
    List Product :=
  items.foldl
    (fun ps item =>
      match ps.find? (fun p => p.id = item.product) with
      | some p => setProduct ps (decreaseStock p item.quantity).2
      | none => ps)
    products

/-- `mpesaCallback` (`mpesa.controller.ts` lines 54-196) as a transformation
of the store.  `body = none` models a request whose `Body.stkCallback` is
missing (the malformed-data branch).  `procError = true` models an exception
raised on entry to the `try` block, answered by the `catch` clause; the
store mutations of the modelled paths are total, so no partially-applied
exceptional state arises. -/
def mpesaCallback (s : Store) (body : Option StkCallback) (procError : Bool) :
    Store × HttpResponse :=
  if procError then
    (s, ⟨200, ⟨0, "Accepted"⟩⟩)
  else
    match body with
    | none => (s, ⟨200, ⟨1, "Invalid callback data"⟩⟩)
    | some cb =>
      match s.orders.find? (fun o => o.mpesaCheckoutId = some cb.CheckoutRequestID) with
      | none => (s, ⟨200, ⟨0, "Accepted"⟩⟩)
      | some order =>
        if cb.ResultCode = 0 then
          let receiptNumber := extractReceiptNumber cb.CallbackMetadata
          let order1 := markAsPaid order cb.CheckoutRequestID receiptNumber
          let s1 : Store := { s with orders := setOrder s.orders order1 }
          let s2 : Store :=
            { s1 with products := decrementOrderStock s1.products order1.items }
          let s3 : Store :=
            match s2.carts.find? (fun c => c.user = order.user) with
            | some cart => { s2 with carts := setCart s2.carts (clearCart cart) }
            | none => s2
          (s3, ⟨200, ⟨0, "Accepted"⟩⟩)
        else
          ({ s with orders := setOrder s.orders (markPaymentFailed order) },
           ⟨200, ⟨0, "Accepted"⟩⟩)

/-- The fields of the order-status poll response (`checkOrderStatus`,
`mpesa.controller.ts` lines 253-282). -/
structure OrderStatusView where
  orderId : String
  orderNumber : String
  status : OrderStatus
  paymentStatus : PaymentStatus
  paymentMethod : PaymentMethod
  totalAmount : Int
  isPaid : Bool
deriving DecidableEq, Repr

/-- `checkOrderStatus`: `none` models the 404 branch; otherwise the view is
built from the order, with `isPaid = (paymentStatus === 'completed')`. -/
def checkOrderStatus (s : Store) (orderId : String) : Option OrderStatusView :=
  match s.orders.find? (fun o => o.id = orderId) with
  | none => none
  | some o =>
    some
      { orderId := o.id, orderNumber := o.orderNumber, status := o.status,
        paymentStatus := o.paymentStatus, paymentMethod := o.paymentMethod,
        totalAmount := o.totalAmount,
        isPaid := o.paymentStatus == PaymentStatus.completed }

/-! ## Checkout orchestrator (`placeOrder`, `src/unnamed/part_015`) -/

/-- The resolved value of `initiateMpesaStkPush` (`mpesa.service.ts`); only
`CheckoutRequestID` is consumed by `placeOrder`. -/
structure StkPushResult where
  MerchantRequestID : String
  CheckoutRequestID : String
  ResponseCode : String
  CustomerMessage : String
deriving DecidableEq, Repr

/-- An `AppError` thrown by a handler: message and HTTP status code. -/
structure AppError where
  message : String
  statusCode : Nat
deriving DecidableEq, Repr

/-- The checkout request body consumed by `placeOrder`. -/
structure CheckoutRequest where
  shippingAddress : String
  paymentMethod : PaymentMethod
  notes : Option String
  phoneNumber : Option String
deriving DecidableEq, Repr

/-- The authenticated user as seen by `placeOrder`: id and optional
profile phone. -/
structure UserProfile where
  id : String
  phone : Option String
deriving DecidableEq, Repr

/-- `placeOrder` (`src/unnamed/part_015`) as a transformation of the store.

* The external `initiateMpesaStkPush` call is the parameter `gateway`:
  `some r` models the call resolving to `r`, `none` models it throwing.
* `newOrderId` is the `_id` mongoose assigns to the created document, and
  `newOrderNumber` the number produced by the order-number `pre('save')`
  hook (the hook itself is outside every claim).
* The created order's `status` is the schema default `PENDING`: the
  `orderStatus: ...` key passed to `Order.create` is not a schema path (the
  schema field is `status`), and `OrderStatus.PENDING_PAYMENT` /
  `OrderStatus.PLACED` are not members of the `OrderStatus` enum in
  `src/types`, so the key is dropped by mongoose strict mode.
* The result pairs the store left behind with either the thrown `AppError`
  or the created order plus `paymentResult`. -/
def placeOrder (s : Store) (user : UserProfile) (req : CheckoutRequest)
    (gateway : Option StkPushResult) (newOrderId newOrderNumber : String) :
    Store × Except AppError (Order × Option StkPushResult) :=
  match s.carts.find? (fun c => c.user = user.id) with
  | none => (s, .error ⟨"Cart is empty. Cannot place an order.", 400⟩)
  | some cart =>
    if cart.items.length = 0 then
      (s, .error ⟨"Cart is empty. Cannot place an order.", 400⟩)
    else
      let totalAmount := cart.totalAmount
      -- `if (!phoneNumber || !req.user!.phone)` — note: it requires BOTH.
      if req.paymentMethod = .mpesa
          ∧ (!(optTruthy req.phoneNumber) || !(optTruthy user.phone)) = true then
        (s, .error ⟨"M-Pesa payment requires a registered phone number.", 400⟩)
      else if req.paymentMethod = .mpesa ∧ totalAmount ≤ 1 then
        (s, .error ⟨"Minimum order amount for M-Pesa is KES 1.", 400⟩)
      else
        let order : Order :=
          { id := newOrderId, orderNumber := newOrderNumber, user := user.id,
            items := cart.items, totalAmount := totalAmount,
            status := .pending, paymentMethod := req.paymentMethod,
            paymentStatus := .pending, transactionId := none,
            mpesaCheckoutId := none, mpesaReceiptNumber := none,
            shippingAddress := req.shippingAddress, notes := req.notes }
        let s1 : Store := { s with orders := s.orders ++ [order] }
        if req.paymentMethod = .mpesa then
          match gateway with
          | some paymentResult =>
            let order1 := { order with
              mpesaCheckoutId := some paymentResult.CheckoutRequestID }
            let s2 : Store := { s1 with orders := setOrder s1.orders order1 }
            let s3 : Store := { s2 with carts := setCart s2.carts (clearCart cart) }
            (s3, .ok (order1, some paymentResult))
          | none =>
            -- `Order.findByIdAndDelete(order._id)`, then throw.
            let s2 : Store :=
              { s1 with orders := s1.orders.filter (fun o => o.id != newOrderId) }
            (s2, .error ⟨"Failed to initiate M-Pesa payment. Please try again.", 500⟩)
        else
          let s2 : Store := { s1 with carts := setCart s1.carts (clearCart cart) }
          (s2, .ok (order, none))

/-- The status and payment status of the order returned by a successful
checkout. -/
def placedOrderState :
    Except AppError (Order × Option StkPushResult) →
      Option (OrderStatus × PaymentStatus)
  | .ok (o, _) => some (o.status, o.paymentStatus)
  | .error _ => none

/-- The `AppError` surfaced by a checkout, if any. -/
def checkoutError :
    Except AppError (Order × Option StkPushResult) → Option AppError
  | .ok _ => none
  | .error e => some e

/-! ## Concrete instances used to evaluate the handlers -/

/-- A finite-stock product: 10 shirts at KES 500. -/
def shirt : Product := ⟨"p1", "Shirt", 500, 10, true⟩

/-- The same product disabled and out of stock. -/
def shirtInactive : Product := ⟨"p1", "Shirt", 500, 0, false⟩

/-- A cart line of two shirts. -/
def shirtLine : CartItem := ⟨"p1", 2, none, none, 500⟩

/-- User `u1`'s cart holding two shirts. -/
def shirtCart : Cart := ⟨"u1", [shirtLine], 1000⟩

/-- A pending M-Pesa order for two shirts with correlation id `chk1`. -/
def pendingOrder : Order :=
  { id := "o1", orderNumber := "INF-2025-00001", user := "u1",
    items := [shirtLine], totalAmount := 1000,
    status := .pending, paymentMethod := .mpesa, paymentStatus := .pending,
    transactionId := none, mpesaCheckoutId := some "chk1",
    mpesaReceiptNumber := none, shippingAddress := "addr", notes := none }

/-- Store state right after an M-Pesa checkout: the pending order, the
product ledger, and the (not yet cleared) cart. -/
def awaitingCallbackStore : Store := ⟨[pendingOrder], [shirt], [shirtCart]⟩

/-- A successful-payment callback payload for correlation id `chk1`. -/
def successPayload : Option StkCallback :=
  some ⟨"m1", "chk1", 0, "The service request is processed successfully.",
        some [⟨"Amount", "1000"⟩, ⟨"MpesaReceiptNumber", "XYZ123"⟩]⟩

/-- A user with a profile phone number. -/
def userWithPhone : UserProfile := ⟨"u1", some "0712345678"⟩

/-- The same user with no phone on file. -/
def userNoPhone : UserProfile := ⟨"u1", none⟩

/-- An M-Pesa checkout request that supplies a phone number in the body. -/
def mpesaReq : CheckoutRequest := ⟨"addr", .mpesa, none, some "0712345678"⟩

/-- A cash (collect-on-delivery) checkout request. -/
def cashReq : CheckoutRequest := ⟨"addr", .cash, none, none⟩

/-- A successful STK push initiation result with correlation id `chk1`. -/
def stkOk : StkPushResult := ⟨"m1", "chk1", "0", "Success. Request accepted for processing"⟩

/-- Store before checkout: empty order book, the shirt ledger, `u1`'s cart. -/
def checkoutStore : Store := ⟨[], [shirt], [shirtCart]⟩

/-- Store before checkout whose only product is inactive and out of stock. -/
def staleCheckoutStore : Store := ⟨[], [shirtInactive], [shirtCart]⟩

/-- An order whose status is `PAID` while its payment is still `pending`
(exercises the `isPaid` derivation of the polling endpoint). -/
def paidStatusPendingPayment : Order :=
  { pendingOrder with status := .paid }

/-- Store for the order-status poll example. -/
def pollStore : Store := ⟨[paidStatusPendingPayment], [shirt], [shirtCart]⟩

/-- The view `checkOrderStatus` builds for `paidStatusPendingPayment`:
status `PAID`, payment still `pending`, hence `isPaid = false`. -/
def pollView : OrderStatusView :=
  { orderId := "o1", orderNumber := "INF-2025-00001", status := .paid,
    paymentStatus := .pending, paymentMethod := .mpesa, totalAmount := 1000,
    isPaid := false }

/-! ## Helper lemmas -/

/-- Every saved cart satisfies the total invariant: the `pre('save')` hook
recomputes `totalAmount` from the items. -/
theorem saveCart_totalAmount (c : Cart) :
    (saveCart c).totalAmount = cartTotal (saveCart c).items := rfl

/-- Each cart mutation preserves the total invariant: every path that writes
the cart ends in `saveCart`, and the not-found path of `updateQuantity`
writes nothing. -/
theorem applyOp_totalAmount (c : Cart) (op : CartOp)
    (h : c.totalAmount = cartTotal c.items) :
    (applyOp c op).totalAmount = cartTotal (applyOp c op).items := by
  cases op with
  | add productId quantity price size color => rfl
  | remove productId size color => rfl
  | clear => rfl
  | update productId quantity size color =>
    have hred : applyOp c (.update productId quantity size color)
        = (updateQuantity c productId quantity size color).2 := rfl
    rw [hred]
    unfold updateQuantity
    by_cases hany : c.items.any (fun item => itemMatches item productId size color) = true
    · rw [if_pos hany]
      by_cases hq : quantity ≤ 0
      · rw [if_pos hq]; rfl
      · rw [if_neg hq]; rfl
    · rw [if_neg hany]
      exact h

/-! ## Claims -/

/-- C1: delivering the same successful callback payload (ResultCode 0,
correlation id `chk1`) twice is NOT idempotent: the handler has no
already-paid guard, so the first delivery takes the shirt stock from 10 to
8 and the second delivery decrements it again to 6, instead of leaving it
at 8.  (The cart clearing is idempotent in effect: the second clear finds
an already-empty cart.) -/
theorem double_callback_decrements_stock_twice :
    ((mpesaCallback awaitingCallbackStore successPayload false).1.products.find?
        (fun p => p.id = "p1")).map Product.stock = some 8
    ∧ (((mpesaCallback
          (mpesaCallback awaitingCallbackStore successPayload false).1
          successPayload false).1.products.find?
        (fun p => p.id = "p1")).map Product.stock = some 6)
    ∧ ((mpesaCallback
          (mpesaCallback awaitingCallbackStore successPayload false).1
          successPayload false).1.carts.find?
        (fun c => c.user = "u1")).map Cart.items = some [] := by
  decide

/-- C2: for an M-Pesa checkout whose payment initiation succeeds,
`placeOrder` (part_015) clears the cart immediately at checkout time — step
5 (`await cart.clearCart()`) runs unconditionally after a successful
initiation — so the cart does NOT retain its original line items. -/
theorem mpesa_checkout_clears_cart_at_checkout :
    checkoutError
        (placeOrder checkoutStore userWithPhone mpesaReq (some stkOk)
          "o1" "INF-2025-00001").2 = none
    ∧ ((placeOrder checkoutStore userWithPhone mpesaReq (some stkOk)
          "o1" "INF-2025-00001").1.carts.find?
        (fun c => c.user = "u1")).map Cart.items = some [] := by
  decide

/-- C3 counterexample: a request body without `Body.stkCallback` is answered
with status 200 but body `{ResultCode: 1, ResultDesc: 'Invalid callback
data'}`, not `{ResultCode: 0, ResultDesc: 'Accepted'}`. -/
theorem invalid_body_ack_differs :
    (mpesaCallback ⟨[], [], []⟩ none false).2.status = 200
    ∧ (mpesaCallback ⟨[], [], []⟩ none false).2.body
        = ⟨1, "Invalid callback data"⟩
    ∧ (mpesaCallback ⟨[], [], []⟩ none false).2.body
        ≠ ⟨0, "Accepted"⟩ := by
  decide

/-- C3 amended: every delivery to the callback handler is answered with HTTP
status 200; the body is `{ResultCode: 0, ResultDesc: 'Accepted'}` in every
case (unknown correlation id, success, failure, internal processing error)
except a malformed body (missing `Body.stkCallback`), which is acknowledged
with `{ResultCode: 1, ResultDesc: 'Invalid callback data'}`. -/
theorem callback_always_acknowledged (s : Store) (body : Option StkCallback)
    (procError : Bool) :
    (mpesaCallback s body procError).2 =
      ⟨200,
        if procError = false ∧ body = none then ⟨1, "Invalid callback data"⟩
        else ⟨0, "Accepted"⟩⟩ := by
  cases procError with
  | true => simp [mpesaCallback]
  | false =>
    cases body with
    | none => simp [mpesaCallback]
    | some cb =>
      cases hfind :
          s.orders.find? (fun o => o.mpesaCheckoutId = some cb.CheckoutRequestID) with
      | none => simp [mpesaCallback, hfind]
      | some order =>
        by_cases hrc : cb.ResultCode = 0 <;>
          simp [mpesaCallback, hfind, hrc]

/-- C5: `placeOrder` (part_015) performs NO per-line re-validation of the
catalog: a cash checkout of a cart whose only line references a product
that is both inactive (`isActive = false`) and out of stock (stock 0 <
quantity 2) succeeds and creates the order anyway. -/
theorem checkout_skips_product_revalidation :
    ((staleCheckoutStore.products.find? (fun p => p.id = "p1")).map
        Product.isActive = some false)
    ∧ ((staleCheckoutStore.products.find? (fun p => p.id = "p1")).map
        Product.stock = some 0)
    ∧ checkoutError
        (placeOrder staleCheckoutStore userWithPhone cashReq none
          "o1" "INF-2025-00001").2 = none
    ∧ (placeOrder staleCheckoutStore userWithPhone cashReq none
          "o1" "INF-2025-00001").1.orders.length = 1 := by
  decide

/-- C8: the phone validation of `placeOrder` (part_015) is
`if (!phoneNumber || !req.user!.phone)`: it rejects the checkout whenever
EITHER source is missing.  A request that supplies a phone number in the
body still fails with the 400 error when the user's profile has no phone
on file. -/
theorem phone_validation_requires_both_sources :
    optTruthy mpesaReq.phoneNumber = true
    ∧ checkoutError
        (placeOrder checkoutStore userNoPhone mpesaReq (some stkOk)
          "o1" "INF-2025-00001").2
        = some ⟨"M-Pesa payment requires a registered phone number.", 400⟩
    ∧ (placeOrder checkoutStore userNoPhone mpesaReq (some stkOk)
          "o1" "INF-2025-00001").1 = checkoutStore := by
  decide

/-- C9: a successful cash checkout through `placeOrder` (part_015) leaves
the created order at the schema defaults `status = PENDING`,
`paymentStatus = pending` — not `PROCESSING` or any other
immediate-confirmation status: the `orderStatus` key passed to
`Order.create` is not a schema path and its value
(`OrderStatus.PENDING_PAYMENT` / `OrderStatus.PLACED`) does not exist in
the `OrderStatus` enum. -/
theorem cash_checkout_status_stays_pending :
    placedOrderState
        (placeOrder checkoutStore userWithPhone cashReq none
          "o1" "INF-2025-00001").2
      = some (OrderStatus.pending, PaymentStatus.pending)
    ∧ OrderStatus.pending ≠ OrderStatus.processing := by
  decide

/-- C4: when the gateway initiation call throws (`gateway = none`) during an
M-Pesa checkout that passed all validations, `placeOrder` deletes the
just-created order and surfaces the 500 error; the store it leaves behind
is exactly the store it started from (cart and ledger untouched, the new
order gone). -/
theorem checkout_rollback_on_initiation_failure
    (s : Store) (user : UserProfile) (req : CheckoutRequest)
    (newOrderId newOrderNumber : String) (cart : Cart)
    (hcart : s.carts.find? (fun c => c.user = user.id) = some cart)
    (hne : cart.items.length ≠ 0)
    (hm : req.paymentMethod = .mpesa)
    (hp1 : optTruthy req.phoneNumber = true)
    (hp2 : optTruthy user.phone = true)
    (hmin : 1 < cart.totalAmount)
    (hfresh : ∀ o ∈ s.orders, o.id ≠ newOrderId) :
    placeOrder s user req none newOrderId newOrderNumber =
      (s, .error ⟨"Failed to initiate M-Pesa payment. Please try again.", 500⟩) := by
  have hle : ¬ cart.totalAmount ≤ 1 := not_le.mpr hmin
  have h1 : s.orders.filter (fun o => o.id != newOrderId) = s.orders :=
    List.filter_eq_self.mpr (fun o ho => by simpa [bne_iff_ne] using hfresh o ho)
  simp [placeOrder, hcart, hne, hm, hp1, hp2, hle, List.filter_append, h1]

/-- Witness for C4 at a concrete checkout whose initiation fails. -/
theorem checkout_rollback_on_initiation_failure_witness :
    placeOrder checkoutStore userWithPhone mpesaReq none "o1" "INF-2025-00001" =
      (checkoutStore,
       .error ⟨"Failed to initiate M-Pesa payment. Please try again.", 500⟩) :=
  checkout_rollback_on_initiation_failure checkoutStore userWithPhone mpesaReq
    "o1" "INF-2025-00001" shirtCart (by decide) (by decide) (by decide)
    (by decide) (by decide) (by decide) (by decide)

/-- C6: starting from the lazily created empty cart, after any sequence of
`addItem` / `updateQuantity` / `removeItem` / `clearCart` operations the
persisted `totalAmount` equals `Σ (line.price * line.quantity)` over the
cart's items. -/
theorem cart_total_invariant_holds (user : String) (ops : List CartOp) :
    (applyOps (emptyCart user) ops).totalAmount
      = cartTotal (applyOps (emptyCart user) ops).items := by
  have key : ∀ (l : List CartOp) (c : Cart),
      c.totalAmount = cartTotal c.items →
      (applyOps c l).totalAmount = cartTotal (applyOps c l).items := by
    intro l
    induction l with
    | nil => intro c hc; exact hc
    | cons op rest ih =>
      intro c hc
      exact ih (applyOp c op) (applyOp_totalAmount c op hc)
  exact key ops (emptyCart user) rfl

/-- C7: `decreaseStock` treats stock `-1` as unlimited (no-op success, and
`increaseStock` is likewise a no-op there); on finite stock a quantity
exceeding the available stock fails and leaves stock unchanged; otherwise
the stock is reduced by exactly the quantity and never goes negative. -/
theorem stock_sentinel_and_underflow (p : Product) (qty : Int) (h : 1 ≤ qty) :
    (p.stock = -1 → decreaseStock p qty = (true, p) ∧ increaseStock p qty = p)
    ∧ (p.stock ≠ -1 → p.stock < qty → decreaseStock p qty = (false, p))
    ∧ (p.stock ≠ -1 → qty ≤ p.stock →
        decreaseStock p qty = (true, { p with stock := p.stock - qty })
        ∧ 0 ≤ ((decreaseStock p qty).2).stock) := by
  refine ⟨fun hs => ?_, fun hs hlt => ?_, fun hs hge => ?_⟩
  · unfold decreaseStock increaseStock
    rw [if_pos hs, if_pos hs]
    exact ⟨rfl, rfl⟩
  · unfold decreaseStock
    rw [if_neg hs, if_pos hlt]
  · have hnl : ¬ p.stock < qty := not_lt.mpr hge
    unfold decreaseStock
    rw [if_neg hs, if_neg hnl]
    refine ⟨rfl, ?_⟩
    show (0 : Int) ≤ p.stock - qty
    omega

/-- Witness for C7: `decreaseStock` with stock 5 and quantity 6 fails and
leaves the product unchanged. -/
theorem stock_sentinel_and_underflow_witness :
    decreaseStock ⟨"p1", "Shirt", 500, 5, true⟩ 6
      = (false, ⟨"p1", "Shirt", 500, 5, true⟩) :=
  (stock_sentinel_and_underflow ⟨"p1", "Shirt", 500, 5, true⟩ 6 (by decide)).2.1
    (by decide) (by decide)

/-- C10: the order-status poll reports `isPaid = true` exactly when the
order's `paymentStatus` is `completed`; in particular an order whose
`status` is `PAID` but whose `paymentStatus` is still `pending` (or
`failed`) reports `isPaid = false`. -/
theorem order_status_poll_isPaid_iff_completed (s : Store) (orderId : String)
    (v : OrderStatusView) (h : checkOrderStatus s orderId = some v) :
    (v.isPaid = true ↔ v.paymentStatus = PaymentStatus.completed)
    ∧ (v.paymentStatus ≠ PaymentStatus.completed → v.isPaid = false) := by
  unfold checkOrderStatus at h
  cases hfind : s.orders.find? (fun o => o.id = orderId) with
  | none => rw [hfind] at h; cases h
  | some o =>
    rw [hfind] at h
    injection h with h1
    subst h1
    constructor
    · simpa using beq_iff_eq (a := o.paymentStatus) (b := PaymentStatus.completed)
    · intro hne
      simpa [beq_iff_eq] using hne

/-- Witness for C10: the poll view of an order with `status = PAID` and
`paymentStatus = pending` has `isPaid = false`. -/
theorem order_status_poll_isPaid_iff_completed_witness :
    (pollView.isPaid = true ↔ pollView.paymentStatus = PaymentStatus.completed)
    ∧ (pollView.paymentStatus ≠ PaymentStatus.completed
        → pollView.isPaid = false) :=
  order_status_poll_isPaid_iff_completed pollStore "o1" pollView (by decide)

end InfinityXs
